import Mathlib

/-!
Shallow embedding of the analytical core of the macro-regimes /
rate-shock-analysis repository (src/regime_classifier.py,
src/performance_analyzer.py, src/scenario_analysis.py, config.py).

Conventions of the embedding:
* A pandas DataFrame handed to a component is the ObservationPanel of the
  spec: rectangular, no missing values (the acquisition collaborator's
  guarantee), so raw columns are plain `ℚ` values; columns produced by
  `diff` carry `Option ℚ`, `none` standing for pandas NaN.
* Floats are modelled by `ℚ`; the two quantities the source obtains via a
  square root (numpy `std`, `sqrt(252)`) are modelled in `ℝ` with
  `Real.sqrt`.
* Dates are integers (day numbers); `(d2 - d1).days` becomes `d2 - d1`.
* Fallible code (`raise`, numpy errors on empty arrays) returns `Except`.
-/

namespace MacroRegimes

/-- Regime labels, the four strings used by `RegimeClassifier`. -/
inductive Regime where
  | STRESS
  | TIGHTENING
  | EASING
  | NORMAL
deriving DecidableEq, Repr

/-- One row of the macro panel consumed by `RegimeClassifier`:
columns FED_FUNDS, TREASURY_10Y, VIX. -/
structure MacroRow where
  fed_funds : ℚ
  treasury_10y : ℚ
  vix : ℚ
deriving DecidableEq, Repr

/-- The configuration fields of `config.Config` used by the classifier. -/
structure CConfig where
  QUARTERLY_LOOKBACK : ℕ
  VIX_LOOKBACK : ℕ
  RATE_CHANGE_THRESHOLD : ℚ
  VIX_STRESS_THRESHOLD : ℚ
deriving DecidableEq, Repr

/-- Element `i` of `series.diff(l)`: `x[i] - x[i-l]` for `l ≤ i`, NaN
(`none`) for the first `l` positions, mirroring `pd.Series.diff`. -/
def diffAt (l : ℕ) (xs : List ℚ) (i : ℕ) : Option ℚ :=
  if l ≤ i then
    match xs[i]?, xs[i - l]? with
    | some a, some b => some (a - b)
    | _, _ => none
  else none

/-- Element `i` of `series.rolling(window=w, min_periods=1).mean()` for a
series with no missing values: the mean of the trailing window ending at
`i` (at most `w` entries, at least one once `i < xs.length`). -/
def rollingMeanAt (w : ℕ) (xs : List ℚ) (i : ℕ) : ℚ :=
  let window := (xs.take (i + 1)).drop (i + 1 - w)
  window.sum / window.length

/-- The guard `pd.notna(o) and o > t` of the classifier loop. -/
def optGT (o : Option ℚ) (t : ℚ) : Bool :=
  match o with
  | some x => t < x
  | none => false

/-- The guard `pd.notna(o) and o < -t` of the classifier loop. -/
def optLTneg (o : Option ℚ) (t : ℚ) : Bool :=
  match o with
  | some x => x < -t
  | none => false

/-- Body of the classification loop of `RegimeClassifier.classify_regimes`
(regime_classifier.py lines 46-69) together with the initialisation
`df['REGIME'] = 'NORMAL'`: the label of row `i`.  Rows with
`i < lookback` are never visited by the loop `for i in range(lookback,
len(df))` and keep the initial NORMAL.  The VIX moving average is always
non-NaN on a panel without missing values (min_periods=1), so its
`pd.notna` guard reduces to the comparison. -/
def classifyAt (cfg : CConfig) (data : List MacroRow) (i : ℕ) : Regime :=
  if i < cfg.QUARTERLY_LOOKBACK then Regime.NORMAL
  else
    let vix_level := rollingMeanAt cfg.VIX_LOOKBACK (data.map MacroRow.vix) i
    let rate_chg := diffAt cfg.QUARTERLY_LOOKBACK (data.map MacroRow.fed_funds) i
    let yield_chg := diffAt cfg.QUARTERLY_LOOKBACK (data.map MacroRow.treasury_10y) i
    if cfg.VIX_STRESS_THRESHOLD < vix_level then Regime.STRESS
    else if optGT rate_chg cfg.RATE_CHANGE_THRESHOLD
         || optGT yield_chg cfg.RATE_CHANGE_THRESHOLD then Regime.TIGHTENING
    else if optLTneg rate_chg cfg.RATE_CHANGE_THRESHOLD
         || optLTneg yield_chg cfg.RATE_CHANGE_THRESHOLD then Regime.EASING
    else Regime.NORMAL

/-- The REGIME column produced by `classify_regimes`: one label per row. -/
def classifyLabels (cfg : CConfig) (data : List MacroRow) : List Regime :=
  (List.range data.length).map (classifyAt cfg data)

/-- The labeled panel that `classify_regimes` returns and stores in
`self.regime_data` (the same object: line 71 `self.regime_data = df`,
line 80 `return df`).  The derived columns RATE_CHANGE_QTR,
YIELD_CHANGE_QTR, VIX_MA, REGIME are materialised; `regime_shift = none`
records that no REGIME_SHIFT column exists yet. -/
structure RegimeFrame where
  data : List MacroRow
  rate_change_qtr : List (Option ℚ)
  yield_change_qtr : List (Option ℚ)
  vix_ma : List ℚ
  regime : List Regime
  regime_shift : Option (List Bool)
deriving DecidableEq, Repr

/-- `RegimeClassifier.classify_regimes` (regime_classifier.py lines 17-80):
copies the input panel, attaches the derived columns and the REGIME
labels. -/
def classify_regimes (cfg : CConfig) (data : List MacroRow) : RegimeFrame :=
  { data := data
    rate_change_qtr :=
      (List.range data.length).map
        (diffAt cfg.QUARTERLY_LOOKBACK (data.map MacroRow.fed_funds))
    yield_change_qtr :=
      (List.range data.length).map
        (diffAt cfg.QUARTERLY_LOOKBACK (data.map MacroRow.treasury_10y))
    vix_ma :=
      (List.range data.length).map
        (rollingMeanAt cfg.VIX_LOOKBACK (data.map MacroRow.vix))
    regime := classifyLabels cfg data
    regime_shift := none }

/-- The boolean series `df['REGIME'] != df['REGIME'].shift(1)` assigned to
the new column REGIME_SHIFT, given the previous row's label (`none` before
the first row; a label compared against NaN is a shift). -/
def regimeShiftMaskAux : Option Regime → List Regime → List Bool
  | _, [] => []
  | prev, r :: rest => (prev ≠ some r) :: regimeShiftMaskAux (some r) rest

/-- The REGIME_SHIFT column over a whole REGIME column. -/
def regimeShiftMask (rs : List Regime) : List Bool :=
  regimeShiftMaskAux none rs

/-- One row of the transition summary returned by
`identify_regime_transitions`: columns REGIME, PREV_REGIME (NaN on the
panel's first row), VIX, FED_FUNDS, TREASURY_10Y. -/
structure TransRow where
  regime : Regime
  prev_regime : Option Regime
  vix : ℚ
  fed_funds : ℚ
  treasury_10y : ℚ
deriving DecidableEq, Repr

/-- The rows of the labeled panel where REGIME_SHIFT holds, paired with the
previous label, scanned left to right. -/
def transRowsAux : Option Regime → List (MacroRow × Regime) → List TransRow
  | _, [] => []
  | prev, (row, r) :: rest =>
    if prev = some r then transRowsAux (some r) rest
    else { regime := r, prev_regime := prev, vix := row.vix,
           fed_funds := row.fed_funds,
           treasury_10y := row.treasury_10y } :: transRowsAux (some r) rest

/-- The transition summary of a labeled frame. -/
def transRows (f : RegimeFrame) : List TransRow :=
  transRowsAux none (f.data.zip f.regime)

/-- `RegimeClassifier.identify_regime_transitions` (regime_classifier.py
lines 129-148).  The method binds `df = self.regime_data` WITHOUT copying
and executes `df['REGIME_SHIFT'] = (df['REGIME'] != df['REGIME'].shift(1))`,
so it mutates the stored frame — the very object `classify_regimes`
returned to its caller.  The first component is the state of that shared
object after the call (REGIME_SHIFT column now present); the second is the
returned transition summary. -/
def identify_regime_transitions (f : RegimeFrame) :
    RegimeFrame × List TransRow :=
  ({ f with regime_shift := some (regimeShiftMask f.regime) }, transRows f)

/-- The three tracked assets of `config.Config.TICKERS`. -/
inductive Ticker where
  | SPY
  | TLT
  | GLD
deriving DecidableEq, Repr

/-- The iteration order of `self.config.TICKERS.keys()`. -/
def tickersList : List Ticker := [Ticker.SPY, Ticker.TLT, Ticker.GLD]

/-- One row of the returns panel consumed by
`PerformanceAnalyzer.regime_performance`: the REGIME label and the three
`{ticker}_RET` columns (`none` = NaN, as `pct_change` leaves on the first
row; `dropna` removes these). -/
structure RetRow where
  regime : Regime
  spy_ret : Option ℚ
  tlt_ret : Option ℚ
  gld_ret : Option ℚ
deriving DecidableEq, Repr

/-- Column lookup `row[f'{ticker}_RET']`. -/
def RetRow.ret (row : RetRow) : Ticker → Option ℚ
  | Ticker.SPY => row.spy_ret
  | Ticker.TLT => row.tlt_ret
  | Ticker.GLD => row.gld_ret

/-- Mean of a series (pandas `.mean()`); the source only applies it to
series of length ≥ 5, where the `ℚ` division is total. -/
def listMean (xs : List ℚ) : ℚ :=
  xs.sum / xs.length

/-- Sample variance, the square of pandas `.std()` (ddof = 1); the source
only applies `.std()` to series of length ≥ 5. -/
def sampleVar (xs : List ℚ) : ℚ :=
  (xs.map (fun x => (x - listMean xs) ^ 2)).sum / ((xs.length : ℚ) - 1)

/-- Configuration field used by the annualized metrics. -/
structure PConfig where
  ANNUALIZATION_FACTOR : ℕ
deriving DecidableEq, Repr

/-- `ann_return = returns.mean() * ann_factor * 100`
(performance_analyzer.py line 63). -/
def annReturn (cfg : PConfig) (returns : List ℚ) : ℚ :=
  listMean returns * cfg.ANNUALIZATION_FACTOR * 100

/-- `ann_vol = returns.std() * np.sqrt(ann_factor) * 100`
(performance_analyzer.py line 64); `std * sqrt(af) = sqrt(var * af)`,
stated over `ℝ` since `ℚ` has no square root. -/
noncomputable def annVol (cfg : PConfig) (returns : List ℚ) : ℝ :=
  Real.sqrt ((sampleVar returns : ℝ) * cfg.ANNUALIZATION_FACTOR) * 100

/-- `sharpe = ann_return / ann_vol if ann_vol > 0 else 0`
(performance_analyzer.py line 65). -/
noncomputable def sharpe (cfg : PConfig) (returns : List ℚ) : ℝ :=
  if 0 < annVol cfg returns then (annReturn cfg returns : ℝ) / annVol cfg returns
  else 0

/-- `(1 + returns).cumprod()` with running accumulator `acc` (pandas
`cumprod` of the shifted series). -/
def cumprodAux : ℚ → List ℚ → List ℚ
  | _, [] => []
  | acc, r :: rest => (acc * (1 + r)) :: cumprodAux (acc * (1 + r)) rest

/-- `cum_ret = (1 + returns).cumprod()` (performance_analyzer.py line 68). -/
def cumRet (returns : List ℚ) : List ℚ :=
  cumprodAux 1 returns

/-- `series.expanding().max()` after the first element, carrying the
running maximum `m`. -/
def runningMaxAux : ℚ → List ℚ → List ℚ
  | _, [] => []
  | m, x :: rest => max m x :: runningMaxAux (max m x) rest

/-- `running_max = cum_ret.expanding().max()`
(performance_analyzer.py line 69). -/
def runningMax : List ℚ → List ℚ
  | [] => []
  | x :: rest => x :: runningMaxAux x rest

/-- `drawdown = (cum_ret - running_max) / running_max`
(performance_analyzer.py line 70). -/
def drawdowns (returns : List ℚ) : List ℚ :=
  List.zipWith (fun c m => (c - m) / m) (cumRet returns) (runningMax (cumRet returns))

/-- `series.min()` on a series the source guards to be non-empty
(len(returns) ≥ 5); the empty case (pandas NaN) is mapped to 0 and never
reached by the callers embedded here. -/
def listMin : List ℚ → ℚ
  | [] => 0
  | x :: xs => xs.foldl min x

/-- `max_dd = drawdown.min() * 100` (performance_analyzer.py line 71). -/
def maxDD (returns : List ℚ) : ℚ :=
  listMin (drawdowns returns) * 100

/-- One (regime, asset) performance record of
`PerformanceAnalyzer.regime_performance`.  The source stores the computed
metrics in a dict; the embedding stores the observation series
(`regime_data[ret_col].dropna()`) from which every stored metric is a
function (`annReturn`, `annVol`, `sharpe`, `maxDD`, rounding aside), which
keeps the record evaluable. -/
structure PerfRecord where
  regime : Regime
  asset : Ticker
  returns : List ℚ
deriving DecidableEq, Repr

/-- The iteration order `regimes = ['TIGHTENING', 'EASING', 'STRESS',
'NORMAL']` of regime_performance. -/
def regimesList : List Regime :=
  [Regime.TIGHTENING, Regime.EASING, Regime.STRESS, Regime.NORMAL]

/-- `PerformanceAnalyzer.regime_performance` (performance_analyzer.py
lines 32-90): for each regime with ≥ 10 rows and each ticker whose
dropna'd return series has ≥ 5 observations, emit a record. -/
def regime_performance (df : List RetRow) : List PerfRecord :=
  regimesList.flatMap (fun regime =>
    let regime_data := df.filter (fun r => r.regime = regime)
    if regime_data.length < 10 then []
    else
      tickersList.filterMap (fun t =>
        let returns := regime_data.filterMap (fun r => r.ret t)
        if returns.length < 5 then none
        else some { regime := regime, asset := t, returns := returns }))

/-- One row of the panel consumed by `RateShockAnalyzer`: the trading date
(day number; pandas Timestamp differences in days become integer
differences) and the TREASURY_10Y and asset-price columns. -/
structure SRow where
  date : ℤ
  treasury_10y : ℚ
  spy : ℚ
  tlt : ℚ
  gld : ℚ
deriving DecidableEq, Repr

/-- Price column lookup `df[ticker]` for a row. -/
def SRow.price (row : SRow) : Ticker → ℚ
  | Ticker.SPY => row.spy
  | Ticker.TLT => row.tlt
  | Ticker.GLD => row.gld

/-- The configuration fields of `config.Config` used by
`RateShockAnalyzer`. -/
structure SConfig where
  SHOCK_LOOKBACK : ℕ
  SHOCK_YIELD_THRESHOLD : ℚ
  SHOCK_HORIZON : ℕ
deriving DecidableEq, Repr

/-- The shock-candidate scan of `identify_shocks` (scenario_analysis.py
lines 27-34): walk the rows in order, keeping the date of every row whose
YIELD_CHG (`df['TREASURY_10Y'].diff(lookback)`) exceeds the threshold;
`i` is the row position, `yields` the whole TREASURY_10Y column. -/
def shockCandidatesAux (cfg : SConfig) (yields : List ℚ) :
    ℕ → List SRow → List ℤ
  | _, [] => []
  | i, row :: rest =>
    if optGT (diffAt cfg.SHOCK_LOOKBACK yields i) cfg.SHOCK_YIELD_THRESHOLD then
      row.date :: shockCandidatesAux cfg yields (i + 1) rest
    else shockCandidatesAux cfg yields (i + 1) rest

/-- `shock_candidates = df[shock_mask].index.tolist()`. -/
def shockCandidates (cfg : SConfig) (panel : List SRow) : List ℤ :=
  shockCandidatesAux cfg (panel.map SRow.treasury_10y) 0 panel

/-- The greedy spacing filter of `identify_shocks` (scenario_analysis.py
lines 36-44): accept a candidate iff no shock has been accepted yet or the
last accepted one is more than 180 days before it. -/
def filterShocksAux : Option ℤ → List ℤ → List ℤ
  | _, [] => []
  | none, d :: rest => d :: filterShocksAux (some d) rest
  | some last, d :: rest =>
    if 180 < d - last then d :: filterShocksAux (some d) rest
    else filterShocksAux (some last) rest

/-- `RateShockAnalyzer.identify_shocks` (scenario_analysis.py lines
18-54): candidate detection followed by the 180-day greedy filter. -/
def identify_shocks (cfg : SConfig) (panel : List SRow) : List ℤ :=
  filterShocksAux none (shockCandidates cfg panel)

/-- One ShockResponse of `measure_shock_response`: the shock date,
start/end yield and per-ticker forward percentage returns. -/
structure ShockResponse where
  shock_date : ℤ
  start_yield : ℚ
  end_yield : ℚ
  spy_ret : ℚ
  tlt_ret : ℚ
  gld_ret : ℚ
deriving DecidableEq, Repr

/-- Response-return column lookup `row[f'{ticker}_ret']`. -/
def ShockResponse.ret (r : ShockResponse) : Ticker → ℚ
  | Ticker.SPY => r.spy_ret
  | Ticker.TLT => r.tlt_ret
  | Ticker.GLD => r.gld_ret

/-- `df.index.get_loc(shock_date)` on an index of unique dates: position
of the first row carrying the date, `none` when absent (the python
KeyError is caught by the surrounding `except` and the event skipped). -/
def dateIndex (panel : List SRow) (d : ℤ) : Option ℕ :=
  panel.findIdx? (fun row => row.date = d)

/-- `(end_price / start_price - 1) * 100` (scenario_analysis.py line 94). -/
def pctReturn (start_price end_price : ℚ) : ℚ :=
  (end_price / start_price - 1) * 100

/-- `RateShockAnalyzer.measure_shock_response` (scenario_analysis.py lines
56-111): for each shock date, locate its row; skip the event when
`shock_idx + horizon >= len(df)` (insufficient forward data — no response,
no error); otherwise record start/end yields and the forward percentage
return of every tracked asset. -/
def measure_shock_response (cfg : SConfig) (panel : List SRow)
    (shock_dates : List ℤ) : List ShockResponse :=
  shock_dates.filterMap (fun d =>
    match dateIndex panel d with
    | none => none
    | some shock_idx =>
      if panel.length ≤ shock_idx + cfg.SHOCK_HORIZON then none
      else
        match panel[shock_idx]?, panel[shock_idx + cfg.SHOCK_HORIZON]? with
        | some r0, some r1 =>
          some { shock_date := d
                 start_yield := r0.treasury_10y
                 end_yield := r1.treasury_10y
                 spy_ret := pctReturn r0.spy r1.spy
                 tlt_ret := pctReturn r0.tlt r1.tlt
                 gld_ret := pctReturn r0.gld r1.gld }
        | _, _ => none)

/-- The portfolio weight map (`config.Config.PORTFOLIO_WEIGHTS`); the
tracked tickers are exactly SPY, TLT, GLD. -/
structure Weights where
  spy : ℚ
  tlt : ℚ
  gld : ℚ
deriving DecidableEq, Repr

/-- Weight lookup `weights.get(ticker, 0)`. -/
def Weights.get (w : Weights) : Ticker → ℚ
  | Ticker.SPY => w.spy
  | Ticker.TLT => w.tlt
  | Ticker.GLD => w.gld

/-- The per-event portfolio return of `portfolio_stress_test`
(scenario_analysis.py lines 131-136): the weighted sum of the event's
per-ticker returns over `weights.keys()`. -/
def portfolioRet (w : Weights) (r : ShockResponse) : ℚ :=
  (tickersList.map (fun t => w.get t * r.ret t)).sum

/-- `np.percentile(xs, p)` with numpy's default linear interpolation;
empty input is an error (numpy: `IndexError: cannot do a non-empty take
from an empty axes`). -/
def npPercentile (xs : List ℚ) (p : ℚ) : Except String ℚ :=
  match xs with
  | [] => Except.error "cannot do a non-empty take from an empty axes"
  | _ :: _ =>
    let s := xs.mergeSort (fun a b => a ≤ b)
    let idx : ℚ := p / 100 * ((xs.length : ℚ) - 1)
    let lo : ℕ := (Int.floor idx).toNat
    let hi : ℕ := (Int.ceil idx).toNat
    let frac : ℚ := idx - (lo : ℚ)
    Except.ok (s.getD lo 0 * (1 - frac) + s.getD hi 0 * frac)

/-- `np.min` / `np.max` on a possibly empty array (numpy raises
`ValueError: zero-size array to reduction operation` when empty). -/
def npMin (xs : List ℚ) : Except String ℚ :=
  match xs with
  | [] => Except.error "zero-size array to reduction operation minimum which has no identity"
  | x :: rest => Except.ok (rest.foldl min x)

/-- Maximum counterpart of `npMin`. -/
def npMax (xs : List ℚ) : Except String ℚ :=
  match xs with
  | [] => Except.error "zero-size array to reduction operation maximum which has no identity"
  | x :: rest => Except.ok (rest.foldl max x)

/-- The summary dict of `portfolio_stress_test` (scenario_analysis.py
lines 141-150).  `np.std` is a square root `ℚ` cannot take; the field
`std_sq` carries the population variance whose square root the source
stores, which determines it. -/
structure StressSummary where
  median : ℚ
  p10 : ℚ
  p90 : ℚ
  mean : ℚ
  std_sq : ℚ
  min : ℚ
  max : ℚ
  count : ℕ
deriving DecidableEq, Repr

/-- One row of the detailed percentile table (scenario_analysis.py lines
153-166): the percentile of each asset's event-return distribution and of
the portfolio's. -/
structure StressTableRow where
  scenario : String
  spy : ℚ
  tlt : ℚ
  gld : ℚ
  portfolio : ℚ
deriving DecidableEq, Repr

/-- Population variance, the square of `np.std` (ddof = 0). -/
def popVar (xs : List ℚ) : ℚ :=
  (xs.map (fun x => (x - listMean xs) ^ 2)).sum / xs.length

/-- The computation of `portfolio_stress_test` once the response set is
fixed (scenario_analysis.py lines 128-177).  On an empty response set the
summary construction fails inside numpy (the `np.percentile` call; pandas
`np.median([])` merely yields NaN, but the very next line raises, so the
observable behaviour is an error and the embedding errors at the median
as well). -/
def runStressTest (w : Weights) (shock_responses : List ShockResponse) :
    Except String (StressSummary × List StressTableRow) := do
  let portfolio_rets := shock_responses.map (portfolioRet w)
  let median ← npPercentile portfolio_rets 50
  let p10 ← npPercentile portfolio_rets 10
  let p90 ← npPercentile portfolio_rets 90
  let mn ← npMin portfolio_rets
  let mx ← npMax portfolio_rets
  let summary : StressSummary :=
    { median := median, p10 := p10, p90 := p90
      mean := listMean portfolio_rets
      std_sq := popVar portfolio_rets
      min := mn, max := mx
      count := portfolio_rets.length }
  let mkTableRow := fun (pct : ℚ) (label : String) => do
    let spyv ← npPercentile (shock_responses.map (fun r => r.spy_ret)) pct
    let tltv ← npPercentile (shock_responses.map (fun r => r.tlt_ret)) pct
    let gldv ← npPercentile (shock_responses.map (fun r => r.gld_ret)) pct
    let portv ← npPercentile portfolio_rets pct
    Except.ok { scenario := label, spy := spyv, tlt := tltv,
                gld := gldv, portfolio := portv }
  let row10 ← mkTableRow 10 "Tail (10th pct)"
  let row50 ← mkTableRow 50 "Median"
  let row90 ← mkTableRow 90 "Best (90th pct)"
  Except.ok (summary, [row10, row50, row90])

/-- `RateShockAnalyzer.portfolio_stress_test` (scenario_analysis.py lines
113-177).  `stored` models `self.shock_responses` (`none` if
`measure_shock_response` has not run), `arg` the explicit
`shock_responses` parameter.  When the argument is omitted and the stored
set is missing or empty, the precondition `ValueError` is raised. -/
def portfolio_stress_test (stored : Option (List ShockResponse))
    (arg : Option (List ShockResponse)) (w : Weights) :
    Except String (StressSummary × List StressTableRow) :=
  match arg with
  | none =>
    match stored with
    | none =>
      Except.error "No shock responses available. Run measure_shock_response() first"
    | some rs =>
      if rs.length = 0 then
        Except.error "No shock responses available. Run measure_shock_response() first"
      else runStressTest w rs
  | some rs => runStressTest w rs

/-- Concrete four-row yield panel used to instantiate the shock-spacing
theorem: candidates arise at dates 10, 100, 300 and the 180-day filter
accepts 10 and 300 (100 falls in 10's cluster). -/
def panelC3 : List SRow :=
  [⟨0, 1, 100, 100, 100⟩, ⟨10, 2, 100, 100, 100⟩,
   ⟨100, 3, 100, 100, 100⟩, ⟨300, 4, 100, 100, 100⟩]

/-- The single response `measure_shock_response` produces on `panelC3`
with lookback 1, threshold 1/2, horizon 2 and event date 10. -/
def respC5 : ShockResponse :=
  { shock_date := 10, start_yield := 2, end_yield := 4,
    spy_ret := pctReturn 100 100, tlt_ret := pctReturn 100 100,
    gld_ret := pctReturn 100 100 }

/-- Ten-row returns panel, all rows in regime NORMAL: the SPY return
series is five days of +1% followed by five days of −1%, so its mean is
exactly 0 while its sample variance is positive. -/
def dfC6 : List RetRow :=
  List.replicate 5 ⟨Regime.NORMAL, some (1/100), some 0, some 0⟩ ++
  List.replicate 5 ⟨Regime.NORMAL, some (-1/100), some 0, some 0⟩

/-- The (NORMAL, SPY) performance record `regime_performance` produces on
`dfC6`. -/
def recC6 : PerfRecord :=
  ⟨Regime.NORMAL, Ticker.SPY,
   List.replicate 5 (1/100) ++ List.replicate 5 (-1/100)⟩

/-! ## Theorems about the regime classifier -/

/-- The trailing window a `rollingMeanAt` reads is unchanged by truncating
the series after position `t` when the position is at most `t`. -/
theorem rollingMeanAt_take (w : ℕ) (xs : List ℚ) (t i : ℕ) (h : i ≤ t) :
    rollingMeanAt w (xs.take (t + 1)) i = rollingMeanAt w xs i := by
  unfold rollingMeanAt
  rw [List.take_take, Nat.min_eq_left (by omega)]

/-- The two positions a `diffAt` reads are unchanged by truncating the
series after position `t` when the position is at most `t`. -/
theorem diffAt_take (l : ℕ) (xs : List ℚ) (t i : ℕ) (h : i ≤ t) :
    diffAt l (xs.take (t + 1)) i = diffAt l xs i := by
  unfold diffAt
  by_cases hl : l ≤ i
  · rw [if_pos hl, if_pos hl, List.getElem?_take, if_pos (show i < t + 1 by omega),
        List.getElem?_take, if_pos (show i - l < t + 1 by omega)]
  · rw [if_neg hl, if_neg hl]

/-- The label the classification-loop body assigns to a row is unchanged
by truncating the panel after row `t`, for rows at most `t`. -/
theorem classifyAt_take (cfg : CConfig) (data : List MacroRow) (t i : ℕ)
    (h : i ≤ t) :
    classifyAt cfg (data.take (t + 1)) i = classifyAt cfg data i := by
  unfold classifyAt
  rw [List.map_take, List.map_take, List.map_take,
      rollingMeanAt_take _ _ _ _ h, diffAt_take _ _ _ _ h, diffAt_take _ _ _ _ h]

/-- C1: regime labeling is causal (no lookahead): for every panel and
every row `t` in it, classifying the panel truncated to its first `t + 1`
rows assigns every row `d ≤ t` the same regime label as classifying the
full panel does; each row's label is a function only of data up to and
including that row. -/
theorem classify_regimes_causal (cfg : CConfig) (data : List MacroRow)
    (t d : ℕ) (ht : t < data.length) (hd : d ≤ t) :
    (classify_regimes cfg (data.take (t + 1))).regime[d]? =
      (classify_regimes cfg data).regime[d]? := by
  have hlen : (data.take (t + 1)).length = t + 1 := by
    rw [List.length_take]; omega
  simp only [classify_regimes, classifyLabels, List.getElem?_map, hlen]
  rw [List.getElem?_range (show d < t + 1 by omega),
      List.getElem?_range (show d < data.length by omega)]
  simp only [Option.map_some']
  rw [classifyAt_take cfg data t d hd]

/-- Closed instance of `classify_regimes_causal` on a concrete
three-row panel, truncation point 1, row 1. -/
theorem classify_regimes_causal_witness :
    (classify_regimes ⟨1, 1, 1/5, 25⟩
        (([⟨0, 0, 10⟩, ⟨1, 1, 30⟩, ⟨2, 2, 40⟩] : List MacroRow).take 2)).regime[1]? =
      (classify_regimes ⟨1, 1, 1/5, 25⟩
        ([⟨0, 0, 10⟩, ⟨1, 1, 30⟩, ⟨2, 2, 40⟩] : List MacroRow)).regime[1]? :=
  classify_regimes_causal ⟨1, 1, 1/5, 25⟩ _ 1 1 (by decide) (by decide)

/-- C2: regime priority order: at every row at or after the lookback
horizon whose trailing VIX moving average exceeds the stress threshold,
`classify_regimes` assigns STRESS — whatever the trailing rate and yield
changes are, so in particular even when one of them simultaneously
exceeds +threshold. -/
theorem classify_regimes_stress_priority (cfg : CConfig)
    (data : List MacroRow) (i : ℕ)
    (h1 : cfg.QUARTERLY_LOOKBACK ≤ i) (h2 : i < data.length)
    (hvix : cfg.VIX_STRESS_THRESHOLD <
      rollingMeanAt cfg.VIX_LOOKBACK (data.map MacroRow.vix) i) :
    (classify_regimes cfg data).regime[i]? = some Regime.STRESS := by
  simp only [classify_regimes, classifyLabels, List.getElem?_map]
  rw [List.getElem?_range h2]
  simp only [Option.map_some', Option.some.injEq]
  unfold classifyAt
  rw [if_neg (by omega)]
  simp only [if_pos hvix]

/-- Closed instance of `classify_regimes_stress_priority` on a concrete
panel whose second row has both VIX MA above the stress threshold and a
trailing rate change above +threshold, and is labeled STRESS, not
TIGHTENING. -/
theorem classify_regimes_stress_priority_witness :
    optGT (diffAt 1 (([⟨0, 0, 30⟩, ⟨1, 1, 30⟩] : List MacroRow).map
        MacroRow.fed_funds) 1) (1/5) = true ∧
    (classify_regimes ⟨1, 1, 1/5, 25⟩
        ([⟨0, 0, 30⟩, ⟨1, 1, 30⟩] : List MacroRow)).regime[1]? =
      some Regime.STRESS :=
  ⟨by norm_num [diffAt, optGT],
   classify_regimes_stress_priority ⟨1, 1, 1/5, 25⟩ _ 1 (by decide) (by decide)
     (by norm_num [rollingMeanAt])⟩

/-- C8: warm-up default label: every row with index strictly below
`QUARTERLY_LOOKBACK` is labeled NORMAL by `classify_regimes` (the
classification loop starts at the lookback index and the REGIME column is
initialised to NORMAL). -/
theorem classify_regimes_warmup_normal (cfg : CConfig)
    (data : List MacroRow) (i : ℕ)
    (hi : i < cfg.QUARTERLY_LOOKBACK) (hlen : i < data.length) :
    (classify_regimes cfg data).regime[i]? = some Regime.NORMAL := by
  simp only [classify_regimes, classifyLabels, List.getElem?_map]
  rw [List.getElem?_range hlen]
  simp only [Option.map_some', Option.some.injEq]
  unfold classifyAt
  rw [if_pos hi]

/-- Closed instance of `classify_regimes_warmup_normal`: on a concrete
two-row panel with lookback 2, the first row is NORMAL even though its
VIX moving average exceeds the stress threshold. -/
theorem classify_regimes_warmup_normal_witness :
    (classify_regimes ⟨2, 1, 1/5, 25⟩
        ([⟨0, 0, 40⟩, ⟨1, 1, 40⟩] : List MacroRow)).regime[0]? =
      some Regime.NORMAL :=
  classify_regimes_warmup_normal ⟨2, 1, 1/5, 25⟩ _ 0 (by decide) (by decide)

/-- C9: the no-in-place-mutation guarantee fails on the code:
`identify_regime_transitions` executes
`df['REGIME_SHIFT'] = (df['REGIME'] != df['REGIME'].shift(1))` on
`self.regime_data` without copying, and that object is the very panel
`classify_regimes` returned to its caller, which therefore gains a
REGIME_SHIFT column.  Evaluated at a concrete one-row panel: the panel
returned by `classify_regimes` has no REGIME_SHIFT column, and after
`identify_regime_transitions` runs, the same object has one — it is no
longer equal to the panel the caller was handed. -/
theorem identify_regime_transitions_mutates :
    (classify_regimes ⟨1, 1, 1/5, 25⟩ [(⟨0, 0, 10⟩ : MacroRow)]).regime_shift
        = none ∧
    ((identify_regime_transitions
        (classify_regimes ⟨1, 1, 1/5, 25⟩ [(⟨0, 0, 10⟩ : MacroRow)])).1).regime_shift
        ≠ none ∧
    (identify_regime_transitions
        (classify_regimes ⟨1, 1, 1/5, 25⟩ [(⟨0, 0, 10⟩ : MacroRow)])).1
      ≠ classify_regimes ⟨1, 1, 1/5, 25⟩ [(⟨0, 0, 10⟩ : MacroRow)] := by
  have h2 : ((identify_regime_transitions
      (classify_regimes ⟨1, 1, 1/5, 25⟩ [(⟨0, 0, 10⟩ : MacroRow)])).1).regime_shift
      = some (regimeShiftMask
          (classify_regimes ⟨1, 1, 1/5, 25⟩ [(⟨0, 0, 10⟩ : MacroRow)]).regime) := rfl
  refine ⟨rfl, ?_, ?_⟩
  · rw [h2]; exact Option.some_ne_none _
  · intro h
    have hfield := congrArg RegimeFrame.regime_shift h
    rw [h2] at hfield
    exact Option.some_ne_none _ hfield

/-- C10: for every non-empty labeled panel, the transition summary of
`identify_regime_transitions` contains the panel's first row (its label
compares unequal to the NaN of `shift(1)`), with PREV_REGIME undefined
(`none`); in particular the summary is never empty. -/
theorem identify_regime_transitions_first_row (cfg : CConfig)
    (row : MacroRow) (rest : List MacroRow) :
    (identify_regime_transitions (classify_regimes cfg (row :: rest))).2 ≠ [] ∧
    (identify_regime_transitions (classify_regimes cfg (row :: rest))).2.head? =
      some { regime := classifyAt cfg (row :: rest) 0, prev_regime := none,
             vix := row.vix, fed_funds := row.fed_funds,
             treasury_10y := row.treasury_10y } := by
  have h : (identify_regime_transitions (classify_regimes cfg (row :: rest))).2 =
      { regime := classifyAt cfg (row :: rest) 0, prev_regime := none,
        vix := row.vix, fed_funds := row.fed_funds,
        treasury_10y := row.treasury_10y } ::
        transRowsAux (some (classifyAt cfg (row :: rest) 0))
          (rest.zip ((List.range rest.length).map
            (fun j => classifyAt cfg (row :: rest) (j + 1)))) := by
    simp only [identify_regime_transitions, transRows, classify_regimes,
      classifyLabels, List.length_cons, List.range_succ_eq_map,
      List.map_cons, List.map_map, List.zip_cons_cons, transRowsAux,
      reduceCtorEq]
    rw [if_neg not_false]
    rfl
  rw [h]
  exact ⟨List.cons_ne_nil _ _, rfl⟩

/-! ## Theorems about the shock scenario engine -/

/-- The candidate scan only selects dates of rows of the panel, in panel
order. -/
theorem shockCandidatesAux_sublist (cfg : SConfig) (yields : List ℚ) :
    ∀ (rows : List SRow) (i : ℕ),
      List.Sublist (shockCandidatesAux cfg yields i rows) (rows.map SRow.date) := by
  intro rows
  induction rows with
  | nil => intro i; simp [shockCandidatesAux]
  | cons r rest ih =>
    intro i
    rw [shockCandidatesAux, List.map_cons]
    by_cases h : optGT (diffAt cfg.SHOCK_LOOKBACK yields i) cfg.SHOCK_YIELD_THRESHOLD
    · rw [if_pos h]
      exact List.Sublist.cons₂ r.date (ih (i + 1))
    · rw [if_neg h]
      exact List.Sublist.cons r.date (ih (i + 1))

/-- Invariant of the greedy 180-day filter, with `l` the last accepted
date: on a strictly increasing candidate list lying entirely after `l`,
(1) accepted dates are pairwise more than 180 days apart, (2) every
accepted date is more than 180 days after `l`, and (3) every rejected
candidate lies within 180 days of `l` or of an earlier accepted date. -/
theorem filterShocksAux_spec (cs : List ℤ) : ∀ (l : ℤ),
    cs.Pairwise (· < ·) → (∀ c ∈ cs, l < c) →
    (filterShocksAux (some l) cs).Pairwise (fun a b => 180 < b - a)
    ∧ (∀ a ∈ filterShocksAux (some l) cs, 180 < a - l)
    ∧ (∀ c ∈ cs, c ∉ filterShocksAux (some l) cs →
        c - l ≤ 180 ∨ ∃ a ∈ filterShocksAux (some l) cs, a < c ∧ c - a ≤ 180) := by
  induction cs with
  | nil =>
    intro l _ _
    simp [filterShocksAux]
  | cons d rest ih =>
    intro l hp hl
    have hd : l < d := hl d (List.mem_cons_self d rest)
    have hrest_lt : ∀ c ∈ rest, d < c := (List.pairwise_cons.mp hp).1
    have hp' : rest.Pairwise (· < ·) := (List.pairwise_cons.mp hp).2
    by_cases hacc : 180 < d - l
    · obtain ⟨ih1, ih2, ih3⟩ := ih d hp' hrest_lt
      have hres : filterShocksAux (some l) (d :: rest) =
          d :: filterShocksAux (some d) rest := by
        simp [filterShocksAux, hacc]
      rw [hres]
      refine ⟨List.pairwise_cons.mpr ⟨ih2, ih1⟩, ?_, ?_⟩
      · intro a ha
        rcases List.mem_cons.mp ha with rfl | ha'
        · exact hacc
        · have := ih2 a ha'
          omega
      · intro c hc hnc
        rcases List.mem_cons.mp hc with rfl | hc'
        · exact absurd (List.mem_cons_self _ _) hnc
        · rcases ih3 c hc' (fun h => hnc (List.mem_cons_of_mem _ h)) with
            h180 | ⟨a, ha, h1, h2⟩
          · exact Or.inr ⟨d, List.mem_cons_self _ _, hrest_lt c hc', h180⟩
          · exact Or.inr ⟨a, List.mem_cons_of_mem _ ha, h1, h2⟩
    · obtain ⟨ih1, ih2, ih3⟩ :=
        ih l hp' (fun c hc => lt_trans hd (hrest_lt c hc))
      have hres : filterShocksAux (some l) (d :: rest) =
          filterShocksAux (some l) rest := by
        simp [filterShocksAux, hacc]
      rw [hres]
      refine ⟨ih1, ih2, ?_⟩
      intro c hc hnc
      rcases List.mem_cons.mp hc with rfl | hc'
      · exact Or.inl (by omega)
      · exact ih3 c hc' hnc

/-- C3: minimum shock spacing: on a panel with strictly increasing dates,
any two distinct events returned by `identify_shocks` are strictly more
than 180 calendar days apart (pairwise, not just consecutively); every
rejected candidate lies within 180 days after an earlier accepted event
(so within a cluster the chronologically earliest candidate is the one
accepted), and the first candidate is always accepted. -/
theorem identify_shocks_spacing (cfg : SConfig) (panel : List SRow)
    (hdates : (panel.map SRow.date).Pairwise (· < ·)) :
    (∀ e1 ∈ identify_shocks cfg panel, ∀ e2 ∈ identify_shocks cfg panel,
        e1 ≠ e2 → 180 < |e2 - e1|)
    ∧ (∀ c ∈ shockCandidates cfg panel, c ∉ identify_shocks cfg panel →
        ∃ a ∈ identify_shocks cfg panel, a < c ∧ c - a ≤ 180)
    ∧ (identify_shocks cfg panel).head? = (shockCandidates cfg panel).head? := by
  have hcand : (shockCandidates cfg panel).Pairwise (· < ·) :=
    hdates.sublist (shockCandidatesAux_sublist cfg (panel.map SRow.treasury_10y) panel 0)
  rcases hc : shockCandidates cfg panel with _ | ⟨d, rest⟩
  · refine ⟨?_, ?_, ?_⟩ <;> simp [identify_shocks, hc, filterShocksAux]
  · rw [hc] at hcand
    have hlt : ∀ c ∈ rest, d < c := (List.pairwise_cons.mp hcand).1
    have hp' : rest.Pairwise (· < ·) := (List.pairwise_cons.mp hcand).2
    have hres : identify_shocks cfg panel = d :: filterShocksAux (some d) rest := by
      rw [identify_shocks, hc, filterShocksAux]
    obtain ⟨s1, s2, s3⟩ := filterShocksAux_spec rest d hp' hlt
    have hpw : (identify_shocks cfg panel).Pairwise (fun a b => 180 < b - a) := by
      rw [hres]
      exact List.pairwise_cons.mpr ⟨s2, s1⟩
    refine ⟨?_, ?_, ?_⟩
    · have habs : (identify_shocks cfg panel).Pairwise
          (fun a b => 180 < |b - a|) :=
        hpw.imp (fun h => lt_of_lt_of_le h (le_abs_self _))
      have hsymm : Symmetric (fun a b : ℤ => 180 < |b - a|) := by
        intro a b h
        rwa [abs_sub_comm] at h
      intro e1 h1 e2 h2 hne
      exact habs.forall hsymm h1 h2 hne
    · intro c hcmem hnc
      rw [hres] at hnc ⊢
      rcases List.mem_cons.mp hcmem with rfl | hc'
      · exact absurd (List.mem_cons_self _ _) hnc
      · rcases s3 c hc' (fun h => hnc (List.mem_cons_of_mem _ h)) with
          h180 | ⟨a, ha, h1, h2⟩
        · exact ⟨d, List.mem_cons_self _ _, hlt c hc', h180⟩
        · exact ⟨a, List.mem_cons_of_mem _ ha, h1, h2⟩
    · rw [hres]
      rfl

/-- Closed instance of `identify_shocks_spacing` on `panelC3`: dates 10
and 300 are both accepted events (100 is rejected as part of 10's
cluster) and lie more than 180 days apart. -/
theorem identify_shocks_spacing_witness :
    (10 : ℤ) ∈ identify_shocks ⟨1, 1/2, 2⟩ panelC3
    ∧ (300 : ℤ) ∈ identify_shocks ⟨1, 1/2, 2⟩ panelC3
    ∧ (180 : ℤ) < |(300 : ℤ) - 10| := by
  have hEq : identify_shocks ⟨1, 1/2, 2⟩ panelC3 = [10, 300] := by
    norm_num [identify_shocks, panelC3, shockCandidates, shockCandidatesAux,
      diffAt, optGT, filterShocksAux]
  have h10 : (10 : ℤ) ∈ identify_shocks ⟨1, 1/2, 2⟩ panelC3 := by
    rw [hEq]; exact List.mem_cons_self _ _
  have h300 : (300 : ℤ) ∈ identify_shocks ⟨1, 1/2, 2⟩ panelC3 := by
    rw [hEq]; exact List.mem_cons_of_mem _ (List.mem_cons_self _ _)
  exact ⟨h10, h300,
    (identify_shocks_spacing ⟨1, 1/2, 2⟩ panelC3 (by decide)).1
      10 h10 300 h300 (by decide)⟩

/-- C5: shock-response horizon safety: every ShockResponse produced by
`measure_shock_response` comes from an event row whose index plus the
forward horizon is strictly below the panel's row count (so both row
reads are in bounds, event index + horizon ≤ last row index); and an
event whose index reaches or exceeds that bound yields no ShockResponse
at all (and no error). -/
theorem measure_shock_response_horizon (cfg : SConfig) (panel : List SRow)
    (dates : List ℤ) :
    (∀ r ∈ measure_shock_response cfg panel dates,
        ∃ i, dateIndex panel r.shock_date = some i ∧
          i + cfg.SHOCK_HORIZON < panel.length)
    ∧ (∀ d ∈ dates, ∀ i, dateIndex panel d = some i →
        panel.length ≤ i + cfg.SHOCK_HORIZON →
        ∀ r ∈ measure_shock_response cfg panel dates, r.shock_date ≠ d) := by
  have H1 : ∀ r ∈ measure_shock_response cfg panel dates,
      ∃ i, dateIndex panel r.shock_date = some i ∧
        i + cfg.SHOCK_HORIZON < panel.length := by
    intro r hr
    obtain ⟨d, _, hfd⟩ := List.mem_filterMap.mp hr
    split at hfd
    · exact absurd hfd (by simp)
    · rename_i i hidx
      split at hfd
      · exact absurd hfd (by simp)
      · rename_i hlen
        split at hfd
        · obtain rfl := Option.some.inj hfd
          exact ⟨i, hidx, by omega⟩
        · exact absurd hfd (by simp)
  refine ⟨H1, ?_⟩
  intro d _ i hidx hlen r hr heq
  obtain ⟨i', hi', hbound⟩ := H1 r hr
  rw [heq, hidx] at hi'
  obtain rfl := Option.some.inj hi'
  omega

/-- Closed instance of `measure_shock_response_horizon` at `panelC3` with
horizon 2 and the single event date 10 (row 1, 1 + 2 < 4): the produced
response's event row satisfies the horizon bound. -/
theorem measure_shock_response_horizon_witness :
    respC5 ∈ measure_shock_response ⟨1, 1/2, 2⟩ panelC3 [10]
    ∧ ∃ i, dateIndex panelC3 respC5.shock_date = some i
        ∧ i + 2 < panelC3.length := by
  have hmem : respC5 ∈ measure_shock_response ⟨1, 1/2, 2⟩ panelC3 [10] := by
    rw [show measure_shock_response ⟨1, 1/2, 2⟩ panelC3 [10] = [respC5] from rfl]
    exact List.mem_cons_self _ _
  exact ⟨hmem,
    (measure_shock_response_horizon ⟨1, 1/2, 2⟩ panelC3 [10]).1 _ hmem⟩

/-- C4: stress-testing with zero shock responses is an error, not a
result: with the `shock_responses` argument omitted and the stored
response set missing or empty, `portfolio_stress_test` raises the
precondition `ValueError`; with an explicitly empty response set the
summary construction fails inside numpy.  In no empty case is a summary
or percentile table returned. -/
theorem portfolio_stress_test_empty (stored : Option (List ShockResponse))
    (w : Weights) :
    ((stored = none ∨ stored = some []) →
      portfolio_stress_test stored none w =
        Except.error "No shock responses available. Run measure_shock_response() first")
    ∧ ∀ rs : List ShockResponse, rs = [] →
      ∃ msg, portfolio_stress_test stored (some rs) w = Except.error msg := by
  constructor
  · rintro (rfl | rfl) <;> rfl
  · rintro rs rfl
    exact ⟨_, rfl⟩

/-- Closed instance of `portfolio_stress_test_empty`: before
`measure_shock_response` has run, a stress test with the configured
weights raises the precondition error. -/
theorem portfolio_stress_test_empty_witness :
    portfolio_stress_test none none ⟨6/10, 3/10, 1/10⟩ =
      Except.error "No shock responses available. Run measure_shock_response() first" :=
  (portfolio_stress_test_empty none ⟨6/10, 3/10, 1/10⟩).1 (Or.inl rfl)

/-! ## Theorems about the performance analyzer -/

/-- The sample variance is nonnegative. -/
theorem sampleVar_nonneg (xs : List ℚ) : 0 ≤ sampleVar xs := by
  rcases xs with _ | ⟨x, rest⟩
  · simp [sampleVar]
  · apply div_nonneg
    · apply List.sum_nonneg
      intro q hq
      obtain ⟨y, _, rfl⟩ := List.mem_map.mp hq
      exact sq_nonneg _
    · have : 1 ≤ (x :: rest).length := by simp
      have : (1 : ℚ) ≤ ((x :: rest).length : ℚ) := by exact_mod_cast this
      linarith

/-- The annualized volatility is nonnegative. -/
theorem annVol_nonneg (cfg : PConfig) (xs : List ℚ) : 0 ≤ annVol cfg xs := by
  unfold annVol
  have := Real.sqrt_nonneg ((sampleVar xs : ℝ) * cfg.ANNUALIZATION_FACTOR)
  linarith

/-- Every record of `regime_performance` carries at least 5 return
observations (the `len(returns) < 5: continue` guard). -/
theorem regime_performance_len (df : List RetRow) (rec : PerfRecord)
    (h : rec ∈ regime_performance df) : 5 ≤ rec.returns.length := by
  unfold regime_performance at h
  obtain ⟨regime, _, hmem⟩ := List.mem_flatMap.mp h
  dsimp only at hmem
  split at hmem
  · exact absurd hmem (List.not_mem_nil _)
  · obtain ⟨t, _, hft⟩ := List.mem_filterMap.mp hmem
    split at hft
    · exact absurd hft (by simp)
    · rename_i hlen
      obtain rfl := Option.some.inj hft
      exact le_of_not_lt hlen

/-- C6 counterexample: the claim "Sharpe equals 0 exactly when annualized
volatility is 0" fails on the code.  On `dfC6` the (NORMAL, SPY) record
has mean daily return exactly 0, so `sharpe = ann_return / ann_vol = 0`
even though the annualized volatility is strictly positive. -/
theorem sharpe_zero_with_positive_vol :
    recC6 ∈ regime_performance dfC6
    ∧ 0 < annVol ⟨252⟩ recC6.returns
    ∧ sharpe ⟨252⟩ recC6.returns = 0 := by
  have hvar : sampleVar recC6.returns = 1/9000 := by
    norm_num [recC6, sampleVar, listMean, List.replicate]
  have hret : annReturn ⟨252⟩ recC6.returns = 0 := by
    norm_num [recC6, annReturn, listMean, List.replicate]
  have hvol : 0 < annVol ⟨252⟩ recC6.returns := by
    unfold annVol
    have h1 : (0 : ℝ) <
        ((sampleVar recC6.returns : ℚ) : ℝ) * ((252 : ℕ) : ℝ) := by
      rw [hvar]; norm_num
    have h2 := Real.sqrt_pos.mpr h1
    have h3 : ((⟨252⟩ : PConfig).ANNUALIZATION_FACTOR : ℝ) = ((252 : ℕ) : ℝ) := rfl
    rw [h3]
    linarith
  refine ⟨?_, hvol, ?_⟩
  · rw [show regime_performance dfC6 =
      [recC6, ⟨Regime.NORMAL, Ticker.TLT, List.replicate 10 0⟩,
       ⟨Regime.NORMAL, Ticker.GLD, List.replicate 10 0⟩] from rfl]
    exact List.mem_cons_self _ _
  · unfold sharpe
    rw [hret]
    split <;> simp

/-- C6 as amended: for every (regime, asset) performance record, the
Sharpe ratio equals annualized return divided by annualized volatility
when the volatility is positive, and equals 0 when the volatility is 0
(no division is performed in that case); it is 0 exactly when the
annualized volatility is 0 OR the annualized return is 0 — a zero Sharpe
can also arise from a zero mean return with positive volatility. -/
theorem sharpe_definition_guarded (df : List RetRow) (cfg : PConfig)
    (rec : PerfRecord) (hrec : rec ∈ regime_performance df) :
    (0 < annVol cfg rec.returns →
      sharpe cfg rec.returns =
        (annReturn cfg rec.returns : ℝ) / annVol cfg rec.returns)
    ∧ (annVol cfg rec.returns = 0 → sharpe cfg rec.returns = 0)
    ∧ (sharpe cfg rec.returns = 0 ↔
        annVol cfg rec.returns = 0 ∨ annReturn cfg rec.returns = 0) := by
  refine ⟨fun h => by rw [sharpe, if_pos h], fun h => by simp [sharpe, h], ?_⟩
  by_cases h : 0 < annVol cfg rec.returns
  · rw [sharpe, if_pos h]
    rw [div_eq_zero_iff]
    constructor
    · rintro (hr | hv)
      · exact Or.inr (by exact_mod_cast hr)
      · exact absurd hv (ne_of_gt h)
    · rintro (hv | hr)
      · exact absurd hv (ne_of_gt h)
      · exact Or.inl (by exact_mod_cast hr)
  · have hv0 : annVol cfg rec.returns = 0 :=
      le_antisymm (le_of_not_lt h) (annVol_nonneg cfg rec.returns)
    rw [sharpe, if_neg h]
    simp [hv0]

/-- Closed instance of `sharpe_definition_guarded` at the concrete
(NORMAL, SPY) record of `dfC6`. -/
theorem sharpe_definition_guarded_witness :
    recC6 ∈ regime_performance dfC6
    ∧ (sharpe ⟨252⟩ recC6.returns = 0 ↔
        annVol ⟨252⟩ recC6.returns = 0 ∨ annReturn ⟨252⟩ recC6.returns = 0) := by
  have hmem : recC6 ∈ regime_performance dfC6 := by
    rw [show regime_performance dfC6 =
      [recC6, ⟨Regime.NORMAL, Ticker.TLT, List.replicate 10 0⟩,
       ⟨Regime.NORMAL, Ticker.GLD, List.replicate 10 0⟩] from rfl]
    exact List.mem_cons_self _ _
  exact ⟨hmem, (sharpe_definition_guarded dfC6 ⟨252⟩ recC6 hmem).2.2⟩

/-- Every entry of a cumulative product of `1 + r` factors starting from
a positive accumulator is positive when every return exceeds −100%. -/
theorem cumprodAux_pos (rs : List ℚ) : ∀ (acc : ℚ), 0 < acc →
    (∀ r ∈ rs, -1 < r) → ∀ c ∈ cumprodAux acc rs, 0 < c := by
  induction rs with
  | nil => intro acc _ _ c hc; simp [cumprodAux] at hc
  | cons r rest ih =>
    intro acc hacc hall c hc
    have hr : -1 < r := hall r (List.mem_cons_self _ _)
    have hfac : 0 < acc * (1 + r) := mul_pos hacc (by linarith)
    rw [cumprodAux] at hc
    rcases List.mem_cons.mp hc with rfl | hc'
    · exact hfac
    · exact ih (acc * (1 + r)) hfac
        (fun x hx => hall x (List.mem_cons_of_mem _ hx)) c hc'

/-- Every drawdown entry against the running maximum lies in (−1, 0]
when every cumulative-return entry is positive. -/
theorem drawdown_zip_bounds (xs : List ℚ) :
    (∀ x ∈ xs, 0 < x) → ∀ (m : ℚ), 0 < m →
    ∀ d ∈ List.zipWith (fun c m' => (c - m') / m') xs (runningMaxAux m xs),
      -1 < d ∧ d ≤ 0 := by
  induction xs with
  | nil => intro _ m _ d hd; simp at hd
  | cons x rest ih =>
    intro hx m hm d hd
    have hx0 : 0 < x := hx x (List.mem_cons_self _ _)
    have hM : 0 < max m x := lt_max_of_lt_right hx0
    rw [runningMaxAux, List.zipWith_cons_cons] at hd
    rcases List.mem_cons.mp hd with rfl | hd'
    · constructor
      · rw [sub_div, div_self (ne_of_gt hM)]
        have : 0 < x / max m x := div_pos hx0 hM
        linarith
      · apply div_nonpos_of_nonpos_of_nonneg
        · exact sub_nonpos.mpr (le_max_right m x)
        · exact le_of_lt hM
    · exact ih (fun y hy => hx y (List.mem_cons_of_mem _ hy)) (max m x) hM d hd'

/-- Every drawdown produced from returns above −100% lies in (−1, 0]. -/
theorem drawdowns_bounds (returns : List ℚ) (h : ∀ r ∈ returns, -1 < r) :
    ∀ d ∈ drawdowns returns, -1 < d ∧ d ≤ 0 := by
  intro d hd
  unfold drawdowns at hd
  have hpos : ∀ c ∈ cumRet returns, 0 < c :=
    cumprodAux_pos returns 1 one_pos h
  rcases hcum : cumRet returns with _ | ⟨c0, crest⟩
  · rw [hcum] at hd; simp at hd
  · rw [hcum] at hd hpos
    rw [runningMax, List.zipWith_cons_cons] at hd
    have hc0 : 0 < c0 := hpos c0 (List.mem_cons_self _ _)
    rcases List.mem_cons.mp hd with rfl | hd'
    · constructor
      · rw [sub_self, zero_div]; norm_num
      · rw [sub_self, zero_div]
    · exact drawdown_zip_bounds crest
        (fun y hy => hpos y (List.mem_cons_of_mem _ hy)) c0 hc0 d hd'

/-- A left fold by `min` stays inside any property closed under `min`. -/
theorem foldl_min_pred (P : ℚ → Prop)
    (hP : ∀ a b, P a → P b → P (min a b)) :
    ∀ (l : List ℚ) (acc : ℚ), P acc → (∀ y ∈ l, P y) → P (l.foldl min acc) := by
  intro l
  induction l with
  | nil => intro acc hacc _; exact hacc
  | cons y rest ih =>
    intro acc hacc hall
    rw [List.foldl_cons]
    exact ih (min acc y) (hP acc y hacc (hall y (List.mem_cons_self _ _)))
      (fun z hz => hall z (List.mem_cons_of_mem _ hz))

/-- The maximum drawdown of a non-empty return series all of whose
entries exceed −100% lies in [−100, 0] (in fact in (−100, 0]). -/
theorem maxDD_bounds (returns : List ℚ) (hne : returns ≠ [])
    (h : ∀ r ∈ returns, -1 < r) :
    maxDD returns ≤ 0 ∧ -100 ≤ maxDD returns := by
  have hb := drawdowns_bounds returns h
  have hdd : ∃ d ds, drawdowns returns = d :: ds := by
    rcases returns with _ | ⟨r, rest⟩
    · exact absurd rfl hne
    · rw [drawdowns, cumRet, cumprodAux, runningMax, List.zipWith_cons_cons]
      exact ⟨_, _, rfl⟩
  obtain ⟨d, ds, hds⟩ := hdd
  have hmin : -1 < listMin (drawdowns returns) ∧ listMin (drawdowns returns) ≤ 0 := by
    rw [hds, listMin]
    apply foldl_min_pred (fun q => -1 < q ∧ q ≤ 0)
    · intro a b ha hb
      rcases min_choice a b with hab | hab <;> rw [hab]
      · exact ha
      · exact hb
    · exact hb d (by rw [hds]; exact List.mem_cons_self _ _)
    · intro y hy
      exact hb y (by rw [hds]; exact List.mem_cons_of_mem _ hy)
  unfold maxDD
  constructor
  · nlinarith [hmin.2]
  · nlinarith [hmin.1]

/-- C7: maximum-drawdown bounds: for every (regime, asset) performance
record whose daily return observations are all strictly greater than
−100%, the maximum drawdown — the minimum over the regime's observations
of cumulative return divided by running-peak cumulative return minus 1,
times 100 — is ≤ 0 and ≥ −100. -/
theorem maxDD_record_bounds (df : List RetRow) (rec : PerfRecord)
    (hrec : rec ∈ regime_performance df)
    (hpos : ∀ x ∈ rec.returns, -1 < x) :
    maxDD rec.returns ≤ 0 ∧ -100 ≤ maxDD rec.returns := by
  have hlen := regime_performance_len df rec hrec
  have hne : rec.returns ≠ [] := by
    intro hnil
    rw [hnil] at hlen
    simp at hlen
  exact maxDD_bounds rec.returns hne hpos

/-- Closed instance of `maxDD_record_bounds` at the concrete
(NORMAL, SPY) record of `dfC6` (±1% daily returns). -/
theorem maxDD_record_bounds_witness :
    recC6 ∈ regime_performance dfC6
    ∧ maxDD recC6.returns ≤ 0 ∧ -100 ≤ maxDD recC6.returns := by
  have hmem : recC6 ∈ regime_performance dfC6 := by
    rw [show regime_performance dfC6 =
      [recC6, ⟨Regime.NORMAL, Ticker.TLT, List.replicate 10 0⟩,
       ⟨Regime.NORMAL, Ticker.GLD, List.replicate 10 0⟩] from rfl]
    exact List.mem_cons_self _ _
  refine ⟨hmem, maxDD_record_bounds dfC6 recC6 hmem ?_⟩
  norm_num [recC6, List.replicate]

end MacroRegimes
